import Mathlib

/-!
Shallow embedding of the hermes routing and dispatch engine
(src/dispatch/send.py, src/dispatcher.py, src/routing/process_series.py,
src/routing/route_series.py, src/common/events.py), together with theorems
about the claims of the specification.

Conventions of the embedding:
* Filesystem effects and outgoing monitor calls are reified as a trace of
  `Act` values, in the order the Python code performs them.
* A Python function that can let an exception escape is modelled as
  returning `List Act × Option PyError`: the acts performed before the
  exception, and the exception if one propagated (`none` = normal return).
* Machine-level details that the claims do not touch (subprocess plumbing,
  uuid generation, the HTTP body of a monitor call) are abstracted: uuids
  and timestamps are inputs, a monitor call is an `Act`.
* `time.time()` values are modelled as natural-number seconds.
-/

/-- Severity levels, from src/common/events.py (class Severity). -/
inductive Severity where
  | INFO
  | WARNING
  | ERROR
  | CRITICAL
  deriving Repr, DecidableEq

/-- General event types, from src/common/events.py (class Hermes_Event). -/
inductive Hermes_Event where
  | UNKNOWN
  | BOOT
  | SHUTDOWN
  | SHUTDOWN_REQUEST
  | CONFIG_UPDATE
  | PROCESSING
  deriving Repr, DecidableEq

/-- Series-level event types, from src/common/events.py (class Series_Event). -/
inductive Series_Event where
  | UNKNOWN
  | REGISTERED
  | ROUTE
  | DISCARD
  | DISPATCH
  | CLEAN
  | ERROR
  | MOVE
  | SUSPEND
  deriving Repr, DecidableEq

/-- Exceptions that the modelled Python code can raise. -/
inductive PyError where
  | indexError
  | typeError
  | unboundLocal
  deriving Repr, DecidableEq

/-- One observable effect of the modelled code: a filesystem operation, a
monitor (bookkeeper) call, a webhook, a job-queue submission or running the
external transfer command. -/
inductive Act where
  | hermesEvent (e : Hermes_Event) (sev : Severity) (desc : String)
  | seriesEvent (e : Series_Event) (uid : String) (fileCount : Nat) (target : String)
      (info : Option String)
  | registerSeries
  | webhook (rule : String)
  | mkdir (path : String)
  | touch (path : String)
  | unlink (path : String)
  | writeTaskFile (path : String)
  | moveFile (src dst : String)
  | copyFile (src dst : String)
  | moveDir (src dst : String)
  | removeFile (path : String)
  | enqueueJob (folder : String)
  | runCmd (folder : String)
  deriving Repr, DecidableEq

/-- Python evaluates `a / b` on two `str` values (route_series.py builds some
paths this way on raw strings); `str` has no division operator, so a
`TypeError` is raised.  The `.ok` branch is therefore unreachable. -/
def strDiv (a b : String) : Except PyError String :=
  .error .typeError

/-- Python `triggered_rules == 1` compares a dict with an int, which is
`False` (route_series.py, push_serieslevel_notification). -/
def pyDictEqInt : Bool := false

/-- Python `len` applied to a bool raises `TypeError: object of type 'bool'
has no len()`.  The `.ok` branch is therefore unreachable. -/
def pyLenOfBool (_b : Bool) : Except PyError Nat :=
  .error .typeError

/-- Python `s.endswith(post)`, over the character lists of the strings. -/
def pyEndsWith (s post : String) : Bool :=
  post.data.isSuffixOf s.data

/-- Python `s.startswith(pre)`, over the character lists of the strings. -/
def pyStartsWith (s pre : String) : Bool :=
  pre.data.isPrefixOf s.data

/-- Python `s[:-n]` for `0 < n ≤ len(s)`: drop the last `n` characters. -/
def pyDropRight (s : String) (n : Nat) : String :=
  ⟨s.data.take (s.data.length - n)⟩

/-- Model of `pathlib.Path.touch()` with the default `exist_ok=True` over an
abstract filesystem (a list of existing paths): it creates the file when
absent and silently succeeds when the file already exists. -/
def pyTouch (fs : List String) (p : String) : List String :=
  if p ∈ fs then fs else p :: fs

/-- State of a constructed `FileLock` (src/routing/process_series.py):
the filesystem after construction and the `lockCreated` flag. -/
structure LockResult where
  fs : List String
  lockCreated : Bool
  deriving Repr, DecidableEq

/-- `FileLock.__init__` from src/routing/process_series.py: sets
`lockCreated = True` and calls `self.lockfile.touch()`.  `touch()` is not an
exclusive create (its default is `exist_ok=True`), so construction succeeds
whether or not the sentinel file already exists; an error value is never
produced. -/
def FileLock_mk (fs : List String) (path_for_lockfile : String) :
    Except Unit LockResult :=
  .ok { fs := pyTouch fs path_for_lockfile, lockCreated := true }

/-- `FileLock.free` from src/routing/process_series.py: unlinks the sentinel
when `lockCreated` is still set and clears the flag (double free is a no-op). -/
def FileLock_free (st : LockResult) (path_for_lockfile : String) : LockResult :=
  if st.lockCreated then
    { fs := st.fs.erase path_for_lockfile, lockCreated := false }
  else st

/-- The dcmsend exit-code table, from src/dispatch/send.py
(DCMSEND_ERROR_CODES).  `DCMSEND_ERROR_CODES.get(rc, None)` is modelled as
this function: codes outside the table give `none`. -/
def DCMSEND_ERROR_CODES (rc : Nat) : Option String :=
  if rc = 1 then some "EXITCODE_COMMANDLINE_SYNTAX_ERROR"
  else if rc = 21 then some "EXITCODE_NO_INPUT_FILES"
  else if rc = 22 then some "EXITCODE_INVALID_INPUT_FILE"
  else if rc = 23 then some "EXITCODE_NO_VALID_INPUT_FILES"
  else if rc = 43 then some "EXITCODE_CANNOT_WRITE_REPORT_FILE"
  else if rc = 60 then some "EXITCODE_CANNOT_INITIALIZE_NETWORK"
  else if rc = 61 then some "EXITCODE_CANNOT_NEGOTIATE_ASSOCIATION"
  else if rc = 62 then some "EXITCODE_CANNOT_SEND_REQUEST"
  else if rc = 65 then some "EXITCODE_CANNOT_ADD_PRESENTATION_CONTEXT"
  else none

/-- The mutable part of the task descriptor `target.json` that
`_increase_retry` reads and writes (src/dispatch/send.py): the retry counter
and the next-retry timestamp, both absent by default. -/
structure TargetJson where
  retries : Option Nat
  next_retry_at : Option Nat
  deriving Repr, DecidableEq

/-- The fields of the task descriptor that `execute` reads directly
(src/dispatch/send.py): `target_info.get("series_uid", ...)` and
`target_info.get("target_name", ...)`. -/
structure TargetInfo where
  series_uid : Option String
  target_name : Option String
  deriving Repr, DecidableEq

/-- The outgoing folder a transfer job works on: its path and basename, the
number of `*.dcm` payload files inside it, its on-disk task descriptor, and
whether `destination/<name>` already exists at the move destination (the
collision `_move_sent_directory` checks for). -/
structure SendFolder where
  path : String
  name : String
  dcmCount : Nat
  targetJson : TargetJson
  collisionAtDest : Bool
  deriving Repr, DecidableEq

/-- `_increase_retry` from src/dispatch/send.py.  It reads the descriptor,
increments `retries` (default 0) and sets `next_retry_at := now + retry_delay`
in memory; if the new counter has reached `retry_max` it returns `False`
WITHOUT writing the file, otherwise it writes the updated descriptor and
returns `True`.  The second component is the descriptor on disk afterwards. -/
def _increase_retry (tj : TargetJson) (retry_max retry_delay now : Nat) :
    Bool × TargetJson :=
  let newRetries := tj.retries.getD 0 + 1
  if newRetries ≥ retry_max then (false, tj)
  else (true, { retries := some newRetries, next_retry_at := some (now + retry_delay) })

/-- `_move_sent_directory` from src/dispatch/send.py, as the acts it performs
on the happy path: if `destination/<name>` already exists the folder is moved
to `destination/<name>_<iso-timestamp>` instead, and afterwards the
`.sending` sentinel inside the moved folder is unlinked. -/
def _move_sent_directory (sourcePath sourceName destination : String)
    (collision : Bool) (nowIso : String) : List Act :=
  if collision then
    [Act.moveDir sourcePath (destination ++ "/" ++ sourceName ++ "_" ++ nowIso),
     Act.unlink (destination ++ "/" ++ sourceName ++ "_" ++ nowIso ++ "/.sending")]
  else
    [Act.moveDir sourcePath (destination ++ "/" ++ sourceName),
     Act.unlink (destination ++ "/" ++ sourceName ++ "/.sending")]

/-- `execute` from src/dispatch/send.py, the transfer worker for one folder.
Inputs: the task fields, the folder, the destination folders, the retry
configuration, the exit code of the external `dcmsend` run, and the clock.
Output: the act trace and the task descriptor on disk afterwards.
On exit 0 it emits `DISPATCH` with the `*.dcm` count and nothing else.
On a non-zero exit it emits `PROCESSING`/`ERROR` and the `ERROR` series event
carrying `DCMSEND_ERROR_CODES.get(rc, None)`, then runs `_increase_retry`;
if that returned `True` it unlinks `.sending`, otherwise it emits `SUSPEND`,
moves the folder to the error folder and emits `MOVE` and a final
`PROCESSING`/`ERROR`. -/
def execute (ti : TargetInfo) (folder : SendFolder)
    (success_folder error_folder : String) (retry_max retry_delay : Nat)
    (exitCode : Nat) (now : Nat) (nowIso : String) :
    List Act × TargetJson :=
  let series_uid := ti.series_uid.getD "series_uid-missing"
  let target_name := ti.target_name.getD "target_name-missing"
  if exitCode = 0 then
    ([Act.runCmd folder.path,
      Act.seriesEvent .DISPATCH series_uid folder.dcmCount target_name (some "")],
     folder.targetJson)
  else
    let dcmsend_error_message := DCMSEND_ERROR_CODES exitCode
    let acts0 :=
      [Act.runCmd folder.path,
       Act.hermesEvent .PROCESSING .ERROR
         ("Error sending " ++ series_uid ++ " to " ++ target_name),
       Act.seriesEvent .ERROR series_uid 0 target_name dcmsend_error_message]
    let retry_increased := _increase_retry folder.targetJson retry_max retry_delay now
    if retry_increased.1 then
      (acts0 ++ [Act.unlink (folder.path ++ "/.sending")], retry_increased.2)
    else
      (acts0
        ++ [Act.seriesEvent .SUSPEND series_uid 0 target_name (some "Max retries reached")]
        ++ _move_sent_directory folder.path folder.name error_folder
             folder.collisionAtDest nowIso
        ++ [Act.seriesEvent .MOVE series_uid 0 error_folder (some ""),
            Act.hermesEvent .PROCESSING .ERROR
              "Series suspended after reaching max retries"],
       retry_increased.2)

/-- Python `entry.is_dir` without parentheses (src/dispatcher.py, the `elif`
of the scan loop) denotes the bound method object itself, which is always
truthy; the parenthesised call `entry.is_dir()` is the actual test. -/
def is_dir_attr_truthy : Bool := true

/-- The part of the parsed task descriptor that the dispatcher scan reads
(src/dispatcher.py): `next_retry_at`, `series_uid` and `target_name`,
each possibly absent. -/
structure DispatchInfo where
  next_retry_at : Option Nat
  series_uid : Option String
  target_name : Option String
  deriving Repr, DecidableEq

/-- One entry of the `os.scandir` snapshot of the outgoing folder, together
with the results of the status predicates the dispatcher calls on it.
`is_ready_for_sending`, `has_been_send` and `is_target_json_valid` live in
dispatch/status.py, outside the modelled sources, so their results are taken
as attributes of the entry: `targetInfo` is the truthy payload of
`is_ready_for_sending` (`none` for a falsy result), `hasBeenSend` the result
of `has_been_send`, and `jsonUid` the `series_uid` field that
`is_target_json_valid(...).get("series_uid", ...)` yields. -/
structure OutEntry where
  path : String
  name : String
  isDir : Bool
  hasBeenSend : Bool
  targetInfo : Option DispatchInfo
  jsonUid : Option String
  collisionAtDest : Bool
  deriving Repr, DecidableEq

/-- The acts of the dispatcher's already-sent branch (src/dispatcher.py):
move the entry to the success folder via `_move_sent_directory` and emit the
`MOVE` series event. -/
def sentBranchActs (success_folder nowIso : String) (e : OutEntry) : List Act :=
  _move_sent_directory e.path e.name success_folder e.collisionAtDest nowIso
    ++ [Act.seriesEvent .MOVE (e.jsonUid.getD "series_uid-missing") 0
          success_folder (some "")]

/-- The body of the dispatcher scan loop for one outgoing entry
(src/dispatcher.py, function `dispatch`).  First branch: a directory that has
not been sent and is ready for sending is claimed (warning when the
descriptor lacks `series_uid` or `target_name`, then `.sending` is touched
and the transfer job is enqueued) provided `time.time() >= next_retry_at`
(default 0).  The `elif` tests `entry.is_dir` without calling it (see
`is_dir_attr_truthy`), so any entry reported as sent takes the move branch. -/
def dispatchEntry (now : Nat) (success_folder nowIso : String) (e : OutEntry) :
    List Act :=
  match e.targetInfo with
  | some ti =>
    if e.isDir && !e.hasBeenSend then
      if now ≥ ti.next_retry_at.getD 0 then
        let series_uid := ti.series_uid.getD "series_uid-missing"
        let target_name := ti.target_name.getD "target_name-missing"
        (if series_uid == "series_uid-missing" || target_name == "target_name-missing"
         then [Act.hermesEvent .PROCESSING .WARNING
                ("Missing information for folder " ++ e.path)]
         else [])
        ++ [Act.touch (e.path ++ "/.sending"), Act.enqueueJob e.path]
      else []
    else if is_dir_attr_truthy && e.hasBeenSend then
      sentBranchActs success_folder nowIso e
    else []
  | none =>
    if is_dir_attr_truthy && e.hasBeenSend then
      sentBranchActs success_folder nowIso e
    else []

/-- One full dispatcher scan over the outgoing snapshot (src/dispatcher.py),
with no termination request: the concatenation of the per-entry acts.  The
scan never waits on an enqueued job; its acts depend only on the snapshot. -/
def dispatch (now : Nat) (success_folder nowIso : String)
    (entries : List OutEntry) : List Act :=
  (entries.map (dispatchEntry now success_folder nowIso)).flatten

namespace mercure_names

/-- Sentinel and file-name constants used by route_series.py.  The constants
module (common/constants.py) is outside the modelled sources; the values
follow the literals of the twin implementation in
src/routing/process_series.py (".lock", ".dcm", ".tags", ".error"). -/
def LOCK : String := ".lock"

def DCM : String := ".dcm"

def TAGS : String := ".tags"

def TASKFILE : String := "task.json"

end mercure_names

namespace mercure_defs

/-- Separator between series UID and rule name in study-level folder names
(route_series.py, push_series_studylevel); the value lives in the external
constants module. -/
def SEPARATOR : String := "#"

end mercure_defs

namespace mercure_options

/-- Value of the `action_trigger` rule attribute for series-level rules. -/
def SERIES : String := "series"

/-- Value of the `action_trigger` rule attribute for study-level rules. -/
def STUDY : String := "study"

end mercure_options

namespace mercure_actions

/-- Values of the `action` rule attribute (external constants module). -/
def ROUTE : String := "route"

def PROCESS : String := "process"

def BOTH : String := "both"

def NOTIFICATION : String := "notification"

def DISCARD : String := "discard"

end mercure_actions

/-- One entry of the `os.scandir` snapshot of the incoming folder: its name
and whether it is a directory. -/
structure Entry where
  name : String
  isDir : Bool
  deriving Repr, DecidableEq

/-- A rule entry of the configuration, with the fields the modelled code
reads.  `evalResult` is the outcome of `rule_evaluation.parse_rule` on this
rule's expression and the series tags (the evaluator lives in
common/rule_evaluation.py, outside the modelled sources): `none` when the
evaluation raised an exception, otherwise the boolean verdict. -/
structure Rule where
  disabled : Option String
  evalResult : Option Bool
  action : Option String
  action_trigger : Option String
  target : Option String
  deriving Repr, DecidableEq

/-- Lookup of a rule by name in the configuration's ordered rule table.
The modelled call sites only look up names previously taken from the same
table, so a missing name (a KeyError in Python) is mapped to an inert
default rule. -/
def lookupRule (rules : List (String × Rule)) (nm : String) : Rule :=
  (((rules.find? (fun pr => pr.1 == nm)).map Prod.snd)).getD
    ⟨none, some false, none, none, none⟩

/-- Python dict assignment `d[k] = v` on a string-keyed dict modelled as an
insertion-ordered association list: an existing key keeps its position and
gets the new value, a new key is appended. -/
def dictInsert (d : List (String × String)) (k v : String) :
    List (String × String) :=
  if d.any (fun p => p.1 == k) then
    d.map (fun p => if p.1 == k then (k, v) else p)
  else d ++ [(k, v)]

/-- File collection of the series scan shared by route_series.py and
process_series.py: every non-directory entry whose name starts with
`<series_UID>#` and ends with the tags extension contributes its stem
(`entry.name[:-5]`). -/
def collectSeriesFiles (entries : List Entry) (series_UID : String) :
    List String :=
  (entries.filter (fun e =>
      pyEndsWith e.name mercure_names.TAGS
        && pyStartsWith e.name (series_UID ++ "#")
        && !e.isDir)).map
    (fun e => pyDropRight e.name 5)

/-- The name bound to the scandir loop variable after the collection loop of
route_series.py / process_series.py: the last entry of the snapshot (this
leaked variable is what the invalid-tags branch passes as the uid of its
`ERROR` series event). -/
def lastEntryName (entries : List Entry) : String :=
  ((entries.getLast?).map Entry.name).getD ""

/-- Loop body of `get_routing_targets` (src/routing/process_series.py):
skip disabled rules, skip when the rule's own name already occurs among the
collected TARGET keys (the source compares the rule name against the target
dict), report and skip rules whose evaluation raised, and for a triggering
rule with a non-empty target record `selected_targets[target] = rule`. -/
def get_routing_targets_step (acc : List (String × String) × List Act)
    (pr : String × Rule) : List (String × String) × List Act :=
  if pr.2.disabled.getD "False" = "True" then acc
  else if acc.1.any (fun p => p.1 == pr.1) then acc
  else
    match pr.2.evalResult with
    | none =>
        (acc.1, acc.2 ++ [Act.hermesEvent .PROCESSING .ERROR ("Invalid rule: " ++ pr.1)])
    | some b =>
        if b then
          let target := pr.2.target.getD ""
          if target = "" then acc else (dictInsert acc.1 target pr.1, acc.2)
        else acc

/-- `get_routing_targets` from src/routing/process_series.py: evaluates all
rules and returns the target-to-rule mapping `selected_targets` plus the
monitor acts of skipped invalid rules. -/
def get_routing_targets (rules : List (String × Rule)) :
    List (String × String) × List Act :=
  rules.foldl get_routing_targets_step ([], [])

/-- `push_series_discard` from src/routing/process_series.py, as its happy
path acts (mkdir and existence check succeed, moves succeed): create
`discard/<uuid>`, take its `.lock`, emit `DISCARD`, move each `.dcm`/`.tags`
pair, emit `MOVE`, free the lock. -/
def push_series_discard (incoming discard_folder uuidStr series_UID : String)
    (fileList : List String) : List Act :=
  let dp := discard_folder ++ "/" ++ uuidStr
  [Act.mkdir dp, Act.touch (dp ++ "/.lock"),
   Act.seriesEvent .DISCARD series_UID fileList.length "" (some "")]
  ++ (fileList.map (fun stem =>
       [Act.moveFile (incoming ++ "/" ++ stem ++ ".dcm") (dp ++ "/" ++ stem ++ ".dcm"),
        Act.moveFile (incoming ++ "/" ++ stem ++ ".tags") (dp ++ "/" ++ stem ++ ".tags")])).flatten
  ++ [Act.seriesEvent .MOVE series_UID fileList.length dp (some ""),
      Act.unlink (dp ++ "/.lock")]

/-- Loop of `push_series_outgoing` (src/routing/process_series.py).
`ct` is the 1-based position of the current target among all selected
targets (`current_target` in the source; it advances even for invalid
targets), `k` counts the uuid-named folders actually created.  The files are
moved for the last selected target (`current_target == total_targets`) and
copied otherwise. -/
def push_series_outgoing_go (incoming outgoing : String)
    (targetsCfg : List String) (uuidGen : Nat → String)
    (series_UID : String) (fileList : List String) (total : Nat) :
    List (String × String) → Nat → Nat → List Act
  | [], _, _ => []
  | (target, rulename) :: rest, ct, k =>
    if target ∈ targetsCfg then
      let folder := outgoing ++ "/" ++ uuidGen k
      let moveOp := ct = total
      ([Act.mkdir folder, Act.touch (folder ++ "/.lock"),
        Act.writeTaskFile (folder ++ "/target.json"),
        Act.seriesEvent .ROUTE series_UID fileList.length target (some rulename)]
       ++ (fileList.map (fun stem =>
            [(if moveOp then Act.moveFile else Act.copyFile)
               (incoming ++ "/" ++ stem ++ ".dcm") (folder ++ "/" ++ stem ++ ".dcm"),
             (if moveOp then Act.moveFile else Act.copyFile)
               (incoming ++ "/" ++ stem ++ ".tags") (folder ++ "/" ++ stem ++ ".tags")])).flatten
       ++ [Act.seriesEvent .MOVE series_UID fileList.length folder (some ""),
           Act.unlink (folder ++ "/.lock")])
      ++ push_series_outgoing_go incoming outgoing targetsCfg uuidGen series_UID
           fileList total rest (ct + 1) (k + 1)
    else
      [Act.hermesEvent .PROCESSING .ERROR ("Invalid target selected " ++ target)]
      ++ push_series_outgoing_go incoming outgoing targetsCfg uuidGen series_UID
           fileList total rest (ct + 1) k

/-- `push_series_outgoing` from src/routing/process_series.py: one staged
outgoing folder per selected target, on the happy path. -/
def push_series_outgoing (incoming outgoing : String)
    (targetsCfg : List String) (uuidGen : Nat → String)
    (series_UID : String) (fileList : List String)
    (transfer_targets : List (String × String)) : List Act :=
  push_series_outgoing_go incoming outgoing targetsCfg uuidGen series_UID
    fileList transfer_targets.length transfer_targets 1 0

/-- The environment of one series-processing run: the scandir snapshot of the
incoming folder, the set of existing files for `exists()` checks, whether the
master tags file parses (`json.load` succeeding), the configured rules and
target names, and the uuid source (`uuid.uuid1()` outcomes, numbered in call
order). -/
structure SeriesEnv where
  entries : List Entry
  fs : List String
  tagsOk : Bool
  rules : List (String × Rule)
  targetsCfg : List String
  uuidGen : Nat → String

/-- `process_series` from src/routing/process_series.py.  Returns the act
trace and the exception that escaped, if any.  The series lock is the
`.lock` file named after the UID in the incoming folder; when the lock
already exists the function returns immediately.  After the collection loop
the source indexes `fileList[0]` without an emptiness check, so an empty
collection raises `IndexError` (no release act is performed then: the
propagating exception keeps the frame, and with it the lock object, alive).
Normal returns release the lock (explicit `lock.free()` at the end,
reference-count destruction on the early returns). -/
def process_series (env : SeriesEnv) (incoming discard_folder outgoing : String)
    (series_UID : String) : List Act × Option PyError :=
  let lock_file := incoming ++ "/" ++ series_UID ++ ".lock"
  if lock_file ∈ env.fs then ([], none)
  else
    let acts0 := [Act.touch lock_file]
    match collectSeriesFiles env.entries series_UID with
    | [] => (acts0, some .indexError)
    | f0 :: restFiles =>
      let fileList := f0 :: restFiles
      let tagsMasterFile := incoming ++ "/" ++ f0 ++ ".tags"
      if tagsMasterFile ∉ env.fs then
        (acts0 ++ [Act.hermesEvent .PROCESSING .ERROR ("Missing file " ++ f0 ++ ".tags"),
                   Act.unlink lock_file], none)
      else if !env.tagsOk then
        (acts0 ++ [Act.seriesEvent .ERROR (lastEntryName env.entries) 0 ""
                     (some "Invalid tag information"),
                   Act.hermesEvent .PROCESSING .ERROR
                     ("Invalid tag for series " ++ series_UID),
                   Act.unlink lock_file], none)
      else
        let acts1 := acts0 ++ [Act.registerSeries,
          Act.seriesEvent .REGISTERED series_UID fileList.length "" (some "")]
        let routed := get_routing_targets env.rules
        let acts2 := acts1 ++ routed.2
        if routed.1.length = 0 then
          (acts2 ++ push_series_discard incoming discard_folder (env.uuidGen 0)
                      series_UID fileList
                 ++ [Act.unlink lock_file], none)
        else
          (acts2 ++ push_series_outgoing incoming outgoing env.targetsCfg env.uuidGen
                      series_UID fileList routed.1
                 ++ [Act.unlink lock_file], none)

/-- Loop of `process_error_files` (src/routing/process_series.py) over the
scandir snapshot: for each non-directory `*.error` file whose `.lock` twin
does not exist, create the lock, move the error file to the error folder,
move the paired payload (name with the 6-character ".error" suffix stripped)
when it exists, and free the lock; busy entries are skipped silently.
Returns the acts and the number of error files processed. -/
def process_error_files_go (incoming error_folder : String) :
    List Entry → List String → List Act → Nat → List Act × Nat
  | [], _, acts, n => (acts, n)
  | e :: rest, fs, acts, n =>
    if pyEndsWith e.name ".error" && !e.isDir then
      let lock_file := incoming ++ "/" ++ e.name ++ ".lock"
      if lock_file ∈ fs then
        process_error_files_go incoming error_folder rest fs acts n
      else
        let fs1 := pyTouch fs lock_file
        let acts1 := acts ++ [Act.touch lock_file,
          Act.moveFile (incoming ++ "/" ++ e.name) (error_folder ++ "/" ++ e.name)]
        let fs2 := fs1.erase (incoming ++ "/" ++ e.name)
        let dicom_filename := pyDropRight e.name 6
        if (incoming ++ "/" ++ dicom_filename) ∈ fs2 then
          process_error_files_go incoming error_folder rest
            ((fs2.erase (incoming ++ "/" ++ dicom_filename)).erase lock_file)
            (acts1 ++ [Act.moveFile (incoming ++ "/" ++ dicom_filename)
                         (error_folder ++ "/" ++ dicom_filename),
                       Act.unlink lock_file])
            (n + 1)
        else
          process_error_files_go incoming error_folder rest (fs2.erase lock_file)
            (acts1 ++ [Act.unlink lock_file]) (n + 1)
    else
      process_error_files_go incoming error_folder rest fs acts n

/-- `process_error_files` from src/routing/process_series.py: run the scan
and, when at least one error file was processed, emit the single aggregate
`PROCESSING`/`ERROR` event carrying the count. -/
def process_error_files (incoming error_folder : String)
    (entries : List Entry) (fs : List String) : List Act :=
  let rn := process_error_files_go incoming error_folder entries fs [] 0
  if rn.2 > 0 then
    rn.1 ++ [Act.hermesEvent .PROCESSING .ERROR
      ("Error parsing " ++ toString rn.2 ++ " incoming files")]
  else rn.1

/-- Loop of `get_triggered_rules` (src/routing/route_series.py): skip
disabled rules, report and skip rules whose evaluation raised, record a
triggering rule under its own name, and on a triggering rule whose action is
DISCARD record it as the discard rule and stop evaluating further rules
(`break`).  Returns (monitor acts, triggered dict, discard rule name). -/
def get_triggered_rules_go :
    List (String × Rule) → List (String × String) → List Act →
    List Act × List (String × String) × String
  | [], trig, acts => (acts, trig, "")
  | pr :: rest, trig, acts =>
    if pr.2.disabled.getD "False" = "True" then
      get_triggered_rules_go rest trig acts
    else
      match pr.2.evalResult with
      | none =>
          get_triggered_rules_go rest trig
            (acts ++ [Act.hermesEvent .PROCESSING .ERROR ("Invalid rule: " ++ pr.1)])
      | some b =>
          if b then
            let trig2 := dictInsert trig pr.1 pr.1
            if pr.2.action.getD "" = mercure_actions.DISCARD then
              (acts, trig2, pr.1)
            else get_triggered_rules_go rest trig2 acts
          else get_triggered_rules_go rest trig acts

/-- `get_triggered_rules` from src/routing/route_series.py. -/
def get_triggered_rules (rules : List (String × Rule)) :
    List Act × List (String × String) × String :=
  get_triggered_rules_go rules [] []

/-- `push_series_discard` from src/routing/route_series.py.  After creating
the discard folder the source builds the lock path as
`Path(discard_path / mercure_names.LOCK)` on a raw string, raising
`TypeError`; the bare `except` handler then evaluates an f-string that
references the never-bound `lock_file`, so the handler itself raises
`UnboundLocalError`, which propagates.  No file is discarded. -/
def push_series_discard_route (discard_folder uuidStr : String) :
    List Act × Option PyError :=
  let discard_path := discard_folder ++ "/" ++ uuidStr
  match strDiv discard_path mercure_names.LOCK with
  | .error _ => ([Act.mkdir discard_path], some .unboundLocal)
  | .ok _ => ([Act.mkdir discard_path], none)

/-- `push_series_studylevel` from src/routing/route_series.py, looping over
the triggered rules.  For the first rule with `action_trigger == STUDY` the
study folder is created when absent, and then the lock path
`Path(folder_name / mercure_names.LOCK)` raises `TypeError` on raw strings;
the handler's f-string reference to the unbound `lock_file` raises
`UnboundLocalError`, which propagates out of the pass. -/
def push_series_studylevel_go (rules : List (String × Rule)) (fs : List String)
    (series_UID : String) :
    List (String × String) → List Act × Option PyError
  | [] => ([], none)
  | nm :: rest =>
    let r := lookupRule rules nm.1
    if r.action_trigger.getD mercure_options.SERIES = mercure_options.STUDY then
      let folder_name := series_UID ++ mercure_defs.SEPARATOR ++ nm.1
      let macts := if folder_name ∈ fs then [] else [Act.mkdir folder_name]
      match strDiv folder_name mercure_names.LOCK with
      | .error _ => (macts, some .unboundLocal)
      | .ok _ => (macts, none)
    else push_series_studylevel_go rules fs series_UID rest

/-- `push_series_studylevel` from src/routing/route_series.py. -/
def push_series_studylevel (rules : List (String × Rule)) (fs : List String)
    (triggered_rules : List (String × String)) (series_UID : String) :
    List Act × Option PyError :=
  push_series_studylevel_go rules fs series_UID triggered_rules

/-- Loop body of the target-collection loop of `push_serieslevel_routing`
(src/routing/route_series.py): for each triggered series-level rule with
action ROUTE, record `selected_targets[target] = rule` when the target name
is non-empty and fire the reception-notification webhook for the rule. -/
def push_serieslevel_routing_step (rules : List (String × Rule))
    (acc : List (String × String) × List Act) (nm : String × String) :
    List (String × String) × List Act :=
  let r := lookupRule rules nm.1
  if r.action_trigger.getD mercure_options.SERIES = mercure_options.SERIES then
    if r.action.getD "" = mercure_actions.ROUTE then
      let target := r.target.getD ""
      let sel := if target = "" then acc.1 else dictInsert acc.1 target nm.1
      (sel, acc.2 ++ [Act.webhook nm.1])
    else acc
  else acc

/-- The `selected_targets` mapping that `push_serieslevel_routing`
(src/routing/route_series.py) collects before staging outgoing folders,
together with the webhook acts fired while collecting. -/
def routing_selected_targets (rules : List (String × Rule))
    (triggered_rules : List (String × String)) :
    List (String × String) × List Act :=
  triggered_rules.foldl (push_serieslevel_routing_step rules) ([], [])

/-- Loop of `push_serieslevel_outgoing` (src/routing/route_series.py): one
staged folder per selected target on the happy path (this function builds
its lock path with string concatenation, so no TypeError here).  Unknown
targets are reported and skipped.  `moveOp` is `len(triggered_rules)==1`:
with a single triggered rule every file pair is moved, otherwise copied. -/
def push_serieslevel_outgoing_go (incoming outgoing : String)
    (targetsCfg : List String) (uuidGen : Nat → String)
    (series_UID : String) (file_list : List String) (moveOp : Bool) :
    List (String × String) → Nat → List Act
  | [], _ => []
  | (target, rulename) :: rest, k =>
    if target ∈ targetsCfg then
      let folder := outgoing ++ "/" ++ uuidGen k
      ([Act.mkdir folder, Act.touch (folder ++ "/" ++ mercure_names.LOCK),
        Act.writeTaskFile (folder ++ "/" ++ mercure_names.TASKFILE),
        Act.seriesEvent .ROUTE series_UID file_list.length target (some rulename)]
       ++ (file_list.map (fun stem =>
            [(if moveOp then Act.moveFile else Act.copyFile)
               (incoming ++ "/" ++ stem ++ mercure_names.DCM)
               (folder ++ "/" ++ stem ++ mercure_names.DCM),
             (if moveOp then Act.moveFile else Act.copyFile)
               (incoming ++ "/" ++ stem ++ mercure_names.TAGS)
               (folder ++ "/" ++ stem ++ mercure_names.TAGS)])).flatten
       ++ [Act.seriesEvent .MOVE series_UID file_list.length folder (some ""),
           Act.unlink (folder ++ "/" ++ mercure_names.LOCK)])
      ++ push_serieslevel_outgoing_go incoming outgoing targetsCfg uuidGen
           series_UID file_list moveOp rest (k + 1)
    else
      [Act.hermesEvent .PROCESSING .ERROR ("Invalid target selected " ++ target)]
      ++ push_serieslevel_outgoing_go incoming outgoing targetsCfg uuidGen
           series_UID file_list moveOp rest k

/-- `push_serieslevel_outgoing` from src/routing/route_series.py. -/
def push_serieslevel_outgoing (incoming outgoing : String)
    (targetsCfg : List String) (uuidGen : Nat → String)
    (series_UID : String) (file_list : List String)
    (triggered_rules : List (String × String))
    (selected_targets : List (String × String)) : List Act :=
  push_serieslevel_outgoing_go incoming outgoing targetsCfg uuidGen series_UID
    file_list (triggered_rules.length = 1) selected_targets 0

/-- `push_serieslevel_routing` from src/routing/route_series.py: collect the
de-duplicated target map, firing the reception webhooks, then stage the
outgoing folders. -/
def push_serieslevel_routing (incoming outgoing : String)
    (rules : List (String × Rule)) (targetsCfg : List String)
    (uuidGen : Nat → String) (series_UID : String) (file_list : List String)
    (triggered_rules : List (String × String)) : List Act :=
  let selr := routing_selected_targets rules triggered_rules
  selr.2 ++ push_serieslevel_outgoing incoming outgoing targetsCfg uuidGen
    series_UID file_list triggered_rules selr.1

/-- `push_serieslevel_processing` from src/routing/route_series.py, looping
over the triggered rules.  For the first series-level rule with action
PROCESS or BOTH the processing folder is created, and then the lock path
`Path(folder_name / mercure_names.LOCK)` raises `TypeError` on raw strings;
the handler's f-string reference to the unbound `lock_file` raises
`UnboundLocalError`, which propagates out of the pass. -/
def push_serieslevel_processing_go (rules : List (String × Rule))
    (processing uuidStr : String) :
    List (String × String) → List Act × Option PyError
  | [] => ([], none)
  | nm :: rest =>
    let r := lookupRule rules nm.1
    if r.action_trigger.getD mercure_options.SERIES = mercure_options.SERIES
        ∧ (r.action.getD "" = mercure_actions.PROCESS
            ∨ r.action.getD "" = mercure_actions.BOTH) then
      let folder_name := processing ++ "/" ++ uuidStr
      match strDiv folder_name mercure_names.LOCK with
      | .error _ => ([Act.mkdir folder_name], some .unboundLocal)
      | .ok _ => ([Act.mkdir folder_name], none)
    else push_serieslevel_processing_go rules processing uuidStr rest

/-- `push_serieslevel_processing` from src/routing/route_series.py. -/
def push_serieslevel_processing (rules : List (String × Rule))
    (processing uuidStr : String)
    (triggered_rules : List (String × String)) : List Act × Option PyError :=
  push_serieslevel_processing_go rules processing uuidStr triggered_rules

/-- `remove_series` from src/routing/route_series.py: delete the `.tags` and
`.dcm` file of every stem from the incoming folder (in that order). -/
def remove_series (incoming : String) (file_list : List String) : List Act :=
  (file_list.map (fun stem =>
    [Act.removeFile (incoming ++ "/" ++ stem ++ mercure_names.TAGS),
     Act.removeFile (incoming ++ "/" ++ stem ++ mercure_names.DCM)])).flatten

/-- `push_serieslevel_notification` from src/routing/route_series.py,
looping over the triggered rules.  For a series-level rule with action
NOTIFICATION the reception webhook is fired; the source then evaluates
`if len(triggered_rules==1):` — the dict-int comparison is `False` and
`len(False)` raises `TypeError`, which propagates, so `remove_series` is
never reached and the remaining rules are not visited. -/
def push_serieslevel_notification_go (rules : List (String × Rule))
    (incoming : String) (file_list : List String) :
    List (String × String) → List Act → List Act × Option PyError
  | [], acts => (acts, none)
  | nm :: rest, acts =>
    let r := lookupRule rules nm.1
    if r.action_trigger.getD mercure_options.SERIES = mercure_options.SERIES then
      if r.action.getD "" = mercure_actions.NOTIFICATION then
        let acts1 := acts ++ [Act.webhook nm.1]
        match pyLenOfBool pyDictEqInt with
        | .error e => (acts1, some e)
        | .ok n =>
            if n ≠ 0 then (acts1 ++ remove_series incoming file_list, none)
            else push_serieslevel_notification_go rules incoming file_list rest acts1
      else push_serieslevel_notification_go rules incoming file_list rest acts
    else push_serieslevel_notification_go rules incoming file_list rest acts

/-- `push_serieslevel_notification` from src/routing/route_series.py. -/
def push_serieslevel_notification (rules : List (String × Rule))
    (incoming : String) (triggered_rules : List (String × String))
    (file_list : List String) : List Act × Option PyError :=
  push_serieslevel_notification_go rules incoming file_list triggered_rules []

/-- `push_series_serieslevel` from src/routing/route_series.py: the routing
pass, then the processing pass, then the notification pass; an exception in
a pass propagates and skips the later passes. -/
def push_series_serieslevel (incoming outgoing processing : String)
    (rules : List (String × Rule)) (targetsCfg : List String)
    (uuidGen : Nat → String) (series_UID : String) (file_list : List String)
    (triggered_rules : List (String × String)) : List Act × Option PyError :=
  let racts := push_serieslevel_routing incoming outgoing rules targetsCfg
    uuidGen series_UID file_list triggered_rules
  let pres := push_serieslevel_processing rules processing (uuidGen 1000)
    triggered_rules
  match pres.2 with
  | some e => (racts ++ pres.1, some e)
  | none =>
    let nres := push_serieslevel_notification rules incoming triggered_rules
      file_list
    (racts ++ pres.1 ++ nres.1, nres.2)

/-- `route_series` from src/routing/route_series.py.  Same skeleton as
`process_series`: return silently when the series lock exists, take the
lock, collect the series files — `fileList[0]` raises `IndexError` when the
collection is empty — read the master tags, emit REGISTERED, evaluate the
rules, then either discard or stage study-level and series-level routings,
removing the source files when more than one rule triggered, and finally
free the lock.  Exceptions escaping a stage propagate (and skip the
explicit lock release). -/
def route_series (env : SeriesEnv)
    (incoming discard_folder outgoing processing : String)
    (series_UID : String) : List Act × Option PyError :=
  let lock_file := incoming ++ "/" ++ series_UID ++ mercure_names.LOCK
  if lock_file ∈ env.fs then ([], none)
  else
    let acts0 := [Act.touch lock_file]
    match collectSeriesFiles env.entries series_UID with
    | [] => (acts0, some .indexError)
    | f0 :: restFiles =>
      let fileList := f0 :: restFiles
      let tagsMasterFile := incoming ++ "/" ++ f0 ++ mercure_names.TAGS
      if tagsMasterFile ∉ env.fs then
        (acts0 ++ [Act.hermesEvent .PROCESSING .ERROR ("Missing file " ++ f0 ++ ".tags"),
                   Act.unlink lock_file], none)
      else if !env.tagsOk then
        (acts0 ++ [Act.seriesEvent .ERROR (lastEntryName env.entries) 0 ""
                     (some "Invalid tag information"),
                   Act.hermesEvent .PROCESSING .ERROR
                     ("Invalid tag for series " ++ series_UID),
                   Act.unlink lock_file], none)
      else
        let acts1 := acts0 ++ [Act.registerSeries,
          Act.seriesEvent .REGISTERED series_UID fileList.length "" (some "")]
        let trig := get_triggered_rules env.rules
        let acts2 := acts1 ++ trig.1
        if trig.2.1.length = 0 ∨ trig.2.2 ≠ "" then
          let dres := push_series_discard_route discard_folder (env.uuidGen 0)
          match dres.2 with
          | some e => (acts2 ++ dres.1, some e)
          | none => (acts2 ++ dres.1 ++ [Act.unlink lock_file], none)
        else
          let sres := push_series_studylevel env.rules env.fs trig.2.1 series_UID
          match sres.2 with
          | some e => (acts2 ++ sres.1, some e)
          | none =>
            let slres := push_series_serieslevel incoming outgoing processing
              env.rules env.targetsCfg env.uuidGen series_UID fileList trig.2.1
            match slres.2 with
            | some e => (acts2 ++ sres.1 ++ slres.1, some e)
            | none =>
              let racts := if trig.2.1.length > 1 then remove_series incoming fileList
                           else []
              (acts2 ++ sres.1 ++ slres.1 ++ racts ++ [Act.unlink lock_file], none)

/-- `route_error_files` from src/routing/route_series.py.  For the first
non-directory `*.error` entry of the scan the source computes the lock path
as `config['incoming_folder'] / entry.name + mercure_names.LOCK`: the `/`
on two raw strings raises `TypeError` outside any try block, so the whole
scan raises before performing any act.  When no error file is present the
scan completes with no acts (and `error_files_found` stays 0, so no
aggregate event is emitted). -/
def route_error_files_go (incoming : String) :
    List Entry → List Act × Option PyError
  | [] => ([], none)
  | e :: rest =>
    if pyEndsWith e.name ".error" && !e.isDir then
      match strDiv incoming (e.name ++ mercure_names.LOCK) with
      | .error er => ([], some er)
      | .ok _ => route_error_files_go incoming rest
    else route_error_files_go incoming rest

/-- `route_error_files` from src/routing/route_series.py. -/
def route_error_files (incoming : String) (entries : List Entry) :
    List Act × Option PyError :=
  route_error_files_go incoming entries

/-- Whether an act is a directory move. -/
def Act.isMoveDir : Act → Bool
  | .moveDir _ _ => true
  | _ => false

/-- Whether an act is a file unlink. -/
def Act.isUnlink : Act → Bool
  | .unlink _ => true
  | _ => false

/-- C1 counterexample: a transfer worker run whose external command exits
with code 0 performs exactly the command run and the DISPATCH event — its
trace contains no directory move and no sentinel unlink, contradicting the
claim that `execute` moves the folder to the success folder and removes the
`.SENDING` sentinel on success. -/
theorem execute_exit0_no_move_cex :
    (execute ⟨some "ABC", some "t1"⟩ ⟨"outgoing/u1", "u1", 2, ⟨none, none⟩, false⟩
        "success" "error" 5 60 0 100 "T0").1
      = [Act.runCmd "outgoing/u1", Act.seriesEvent .DISPATCH "ABC" 2 "t1" (some "")]
    ∧ ((execute ⟨some "ABC", some "t1"⟩ ⟨"outgoing/u1", "u1", 2, ⟨none, none⟩, false⟩
        "success" "error" 5 60 0 100 "T0").1).all
        (fun a => !(a.isMoveDir || a.isUnlink)) = true := by
  exact ⟨rfl, rfl⟩

/-- C1 (amended): when the external transfer command exits with code 0, the
transfer worker `execute` emits `DISPATCH(series_uid, file_count,
target_name)` with the `*.dcm` count of the folder and does nothing else —
in particular it neither moves the folder nor removes `.SENDING`, and the
task descriptor on disk is untouched; the move to the success folder (and
the `.SENDING` removal inside `_move_sent_directory`) is instead performed
by the dispatcher scan's sent branch for any entry reported as sent. -/
theorem execute_exit0_spec (ti : TargetInfo) (folder : SendFolder)
    (sf ef iso : String) (rm rd now : Nat) :
    execute ti folder sf ef rm rd 0 now iso
      = ([Act.runCmd folder.path,
          Act.seriesEvent .DISPATCH (ti.series_uid.getD "series_uid-missing")
            folder.dcmCount (ti.target_name.getD "target_name-missing") (some "")],
         folder.targetJson)
    ∧ (∀ e : OutEntry, e.hasBeenSend = true →
        dispatchEntry now sf iso e = sentBranchActs sf iso e) := by
  constructor
  · rfl
  · intro e he
    unfold dispatchEntry
    cases h : e.targetInfo with
    | none => simp [he, is_dir_attr_truthy]
    | some ti' => simp [he, is_dir_attr_truthy]

/-- Witness for `execute_exit0_spec` at a concrete input. -/
theorem execute_exit0_spec_witness :
    dispatchEntry 100 "success" "T0"
        ⟨"outgoing/u2", "u2", false, true, none, some "S", false⟩
      = sentBranchActs "success" "T0"
        ⟨"outgoing/u2", "u2", false, true, none, some "S", false⟩ :=
  (execute_exit0_spec ⟨none, none⟩ ⟨"x", "x", 0, ⟨none, none⟩, false⟩
      "success" "error" "T0" 0 0 100).2
    ⟨"outgoing/u2", "u2", false, true, none, some "S", false⟩ rfl

/-- C2 counterexample: on the failed attempt that reaches `retry_max`
(here `retry_max = 1`, stored `retries = 0`), `_increase_retry` returns
`False` and the task descriptor on disk is NOT rewritten — the persisted
`retries` stays 0 and `next_retry_at` stays 50 although `now = 100` —
contradicting the claim that the descriptor is rewritten on every failed
attempt including the one that reaches `retry_max`. -/
theorem increase_retry_at_max_cex :
    _increase_retry ⟨some 0, some 50⟩ 1 10 100 = (false, ⟨some 0, some 50⟩) := by
  rfl

/-- C2 (amended): on a failed attempt whose incremented retry counter stays
below `retry_max`, the descriptor is rewritten with `retries + 1` (a strict
increase) and `next_retry_at = now + retry_delay` (a strict increase
whenever `retry_delay > 0` and the attempt happens at or after the previous
`next_retry_at`); on the attempt that reaches `retry_max` the descriptor is
returned unchanged — nothing is persisted — and the caller moves the folder
to the error folder instead. -/
theorem increase_retry_spec (tj : TargetJson) (retry_max retry_delay now : Nat) :
    (tj.retries.getD 0 + 1 < retry_max →
      _increase_retry tj retry_max retry_delay now
        = (true, ⟨some (tj.retries.getD 0 + 1), some (now + retry_delay)⟩))
    ∧ (retry_max ≤ tj.retries.getD 0 + 1 →
      _increase_retry tj retry_max retry_delay now = (false, tj))
    ∧ tj.retries.getD 0 < tj.retries.getD 0 + 1
    ∧ (tj.next_retry_at.getD 0 ≤ now → 0 < retry_delay →
      tj.next_retry_at.getD 0 < now + retry_delay) := by
  refine ⟨fun h => ?_, fun h => ?_, Nat.lt_succ_self _, fun h1 h2 => by omega⟩
  · unfold _increase_retry
    rw [if_neg (by omega)]
  · unfold _increase_retry
    rw [if_pos (by omega)]

/-- Witness for `increase_retry_spec` at a concrete input. -/
theorem increase_retry_spec_witness :
    _increase_retry ⟨some 0, some 5⟩ 3 7 10 = (true, ⟨some 1, some 17⟩) :=
  (increase_retry_spec ⟨some 0, some 5⟩ 3 7 10).1 (by decide)

/-- C5 counterexample: exit code 2 is non-zero and outside the table, and
`DCMSEND_ERROR_CODES.get` yields `None` for it — not a reason "UNKNOWN" —
and the emitted ERROR series event of the transfer worker carries that
`None`. -/
theorem dcmsend_unknown_code_cex :
    DCMSEND_ERROR_CODES 2 = none
    ∧ DCMSEND_ERROR_CODES 2 ≠ some "UNKNOWN"
    ∧ (execute ⟨some "ABC", some "t1"⟩ ⟨"outgoing/u1", "u1", 2, ⟨none, none⟩, false⟩
        "success" "error" 5 60 2 100 "T0").1.get? 2
      = some (Act.seriesEvent .ERROR "ABC" 0 "t1" none) := by
  refine ⟨rfl, by decide, rfl⟩

/-- C5 (amended): the nine listed exit codes map to their named symbolic
reasons; every other exit code maps to `None` (the code has no UNKNOWN
symbol), and on any non-zero exit the ERROR series event emitted by the
transfer worker carries exactly `DCMSEND_ERROR_CODES.get(rc, None)` as its
info — so `None`, not "UNKNOWN", for unlisted codes. -/
theorem dcmsend_error_code_mapping (rc : Nat) :
    DCMSEND_ERROR_CODES 1 = some "EXITCODE_COMMANDLINE_SYNTAX_ERROR"
    ∧ DCMSEND_ERROR_CODES 21 = some "EXITCODE_NO_INPUT_FILES"
    ∧ DCMSEND_ERROR_CODES 22 = some "EXITCODE_INVALID_INPUT_FILE"
    ∧ DCMSEND_ERROR_CODES 23 = some "EXITCODE_NO_VALID_INPUT_FILES"
    ∧ DCMSEND_ERROR_CODES 43 = some "EXITCODE_CANNOT_WRITE_REPORT_FILE"
    ∧ DCMSEND_ERROR_CODES 60 = some "EXITCODE_CANNOT_INITIALIZE_NETWORK"
    ∧ DCMSEND_ERROR_CODES 61 = some "EXITCODE_CANNOT_NEGOTIATE_ASSOCIATION"
    ∧ DCMSEND_ERROR_CODES 62 = some "EXITCODE_CANNOT_SEND_REQUEST"
    ∧ DCMSEND_ERROR_CODES 65 = some "EXITCODE_CANNOT_ADD_PRESENTATION_CONTEXT"
    ∧ (rc ∉ ([1, 21, 22, 23, 43, 60, 61, 62, 65] : List Nat) →
        DCMSEND_ERROR_CODES rc = none)
    ∧ (∀ (ti : TargetInfo) (folder : SendFolder) (sf ef iso : String)
        (rm rd now : Nat), rc ≠ 0 →
        (execute ti folder sf ef rm rd rc now iso).1.get? 2
          = some (Act.seriesEvent .ERROR (ti.series_uid.getD "series_uid-missing") 0
              (ti.target_name.getD "target_name-missing") (DCMSEND_ERROR_CODES rc))) := by
  refine ⟨rfl, rfl, rfl, rfl, rfl, rfl, rfl, rfl, rfl, fun h => ?_, ?_⟩
  · simp only [List.mem_cons, List.not_mem_nil, or_false] at h
    push_neg at h
    obtain ⟨h1, h21, h22, h23, h43, h60, h61, h62, h65⟩ := h
    simp [DCMSEND_ERROR_CODES, h1, h21, h22, h23, h43, h60, h61, h62, h65]
  · intro ti folder sf ef iso rm rd now hne
    unfold execute
    rw [if_neg hne]
    cases h : (_increase_retry folder.targetJson rm rd now).1 <;> simp [h]

/-- Witness for `dcmsend_error_code_mapping` at a concrete input. -/
theorem dcmsend_error_code_mapping_witness :
    DCMSEND_ERROR_CODES 99 = none
    ∧ (execute ⟨some "S", some "T"⟩ ⟨"outgoing/u9", "u9", 1, ⟨none, none⟩, false⟩
        "success" "error" 5 60 99 100 "T0").1.get? 2
      = some (Act.seriesEvent .ERROR "S" 0 "T" none) := by
  obtain ⟨-, -, -, -, -, -, -, -, -, h10, h11⟩ := dcmsend_error_code_mapping 99
  refine ⟨h10 (by decide), ?_⟩
  have := h11 ⟨some "S", some "T"⟩ ⟨"outgoing/u9", "u9", 1, ⟨none, none⟩, false⟩
    "success" "error" "T0" 5 60 100 (by decide)
  simpa [DCMSEND_ERROR_CODES] using this

/-- C6 counterexample: constructing a `FileLock` on a path whose sentinel
file already exists succeeds (returns a constructed lock and leaves the
filesystem unchanged) instead of failing: `Path.touch()` with its default
`exist_ok=True` is not an exclusive create. -/
theorem filelock_exists_still_succeeds_cex :
    FileLock_mk ["incoming/a.lock"] "incoming/a.lock"
      = .ok ⟨["incoming/a.lock"], true⟩
    ∧ FileLock_mk ["incoming/a.lock"] "incoming/a.lock" ≠ .error () := by
  refine ⟨?_, ?_⟩
  · simp [FileLock_mk, pyTouch]
  · intro h
    simp [FileLock_mk] at h

/-- C6 (amended): `FileLock` construction touches the sentinel file and
always succeeds — it creates the sentinel when absent and silently reuses it
when present (no atomic exclusive-create); exclusivity is only approximated
by the callers' separate `exists()` pre-check. -/
theorem filelock_mk_touch_semantics (fs : List String) (p : String) :
    (p ∈ fs → FileLock_mk fs p = .ok ⟨fs, true⟩)
    ∧ (p ∉ fs → FileLock_mk fs p = .ok ⟨p :: fs, true⟩) := by
  constructor <;> intro h <;> simp [FileLock_mk, pyTouch, h]

/-- Witness for `filelock_mk_touch_semantics` at a concrete input: the
sentinel already exists and construction still succeeds. -/
theorem filelock_mk_touch_semantics_witness :
    FileLock_mk ["x.lock"] "x.lock" = .ok ⟨["x.lock"], true⟩ :=
  (filelock_mk_touch_semantics ["x.lock"] "x.lock").1 (List.mem_cons_self _ _)

/-- C3: when no incoming file matches `<series_uid>#*.tags` the collection
list is empty and both `route_series` and `process_series` evaluate
`fileList[0]`, raising `IndexError` after creating the series lock — instead
of releasing the lock and returning normally.  Evaluated here on a snapshot
whose only file belongs to a different series. -/
theorem series_scan_empty_index_error :
    route_series
        ⟨[⟨"XYZ#1.tags", false⟩], ["incoming/XYZ#1.tags"], true, [], [], fun _ => "u"⟩
        "incoming" "discard" "outgoing" "processing" "ABC"
      = ([Act.touch "incoming/ABC.lock"], some .indexError)
    ∧ process_series
        ⟨[⟨"XYZ#1.tags", false⟩], ["incoming/XYZ#1.tags"], true, [], [], fun _ => "u"⟩
        "incoming" "discard" "outgoing" "ABC"
      = ([Act.touch "incoming/ABC.lock"], some .indexError) := by
  exact ⟨by decide, by decide⟩

/-- C4: in the series-level notification pass, for the sole triggered rule
(action NOTIFICATION, series trigger) the reception webhook is fired and
then `len(triggered_rules==1)` raises `TypeError`: the pass does not
complete, and `remove_series` is never reached, so the series files are not
removed from the incoming folder. -/
theorem notification_pass_type_error :
    push_serieslevel_notification
        [("r1", ⟨none, some true, some "notification", some "series", none⟩)]
        "incoming" [("r1", "r1")] ["f1"]
      = ([Act.webhook "r1"], some .typeError) := by
  decide

/-- C7: on a snapshot holding the error file `f.dcm.error`,
`route_error_files` raises `TypeError` while building the per-file lock path
(`str / str`) before performing any act, while the twin
`process_error_files` performs the claimed behavior: lock, move the error
file, move the paired payload `f.dcm` when present, unlink the lock, and
emit exactly one aggregate `PROCESSING`/`ERROR` event carrying the count;
with no error file, or with the per-file lock busy, no event is emitted. -/
theorem error_files_quarantine_spec :
    route_error_files "incoming" [⟨"f.dcm.error", false⟩] = ([], some .typeError)
    ∧ process_error_files "incoming" "error" [⟨"f.dcm.error", false⟩]
        ["incoming/f.dcm.error", "incoming/f.dcm"]
      = [Act.touch "incoming/f.dcm.error.lock",
         Act.moveFile "incoming/f.dcm.error" "error/f.dcm.error",
         Act.moveFile "incoming/f.dcm" "error/f.dcm",
         Act.unlink "incoming/f.dcm.error.lock",
         Act.hermesEvent .PROCESSING .ERROR "Error parsing 1 incoming files"]
    ∧ process_error_files "incoming" "error" [⟨"g.dcm", false⟩] ["incoming/g.dcm"] = []
    ∧ process_error_files "incoming" "error" [⟨"f.dcm.error", false⟩]
        ["incoming/f.dcm.error", "incoming/f.dcm.error.lock"] = [] := by
  refine ⟨by decide, by decide, by decide, by decide⟩

/-- Updating an existing key with `dictInsert`'s map pass leaves the key
list of the association list unchanged. -/
theorem map_update_keys (d : List (String × String)) (k v : String) :
    (d.map (fun p => if p.1 == k then (k, v) else p)).map Prod.fst
      = d.map Prod.fst := by
  induction d with
  | nil => rfl
  | cons p t ih =>
    simp only [List.map_cons, ih]
    by_cases h : p.1 == k
    · have hk : p.1 = k := eq_of_beq h
      simp [h, hk]
    · simp [h]

/-- Keys of `dictInsert`: an update keeps the key list, a fresh key is
appended. -/
theorem dictInsert_keys (d : List (String × String)) (k v : String) :
    (dictInsert d k v).map Prod.fst
      = if d.any (fun p => p.1 == k) then d.map Prod.fst
        else d.map Prod.fst ++ [k] := by
  unfold dictInsert
  by_cases h : d.any (fun p => p.1 == k)
  · simp [h]
    intro a b _
    by_cases hak : a = k
    · simp [hak]
    · simp [hak]
  · simp [h]

/-- `dictInsert` preserves distinctness of the keys. -/
theorem dictInsert_keys_nodup (d : List (String × String)) (k v : String)
    (h : (d.map Prod.fst).Nodup) : ((dictInsert d k v).map Prod.fst).Nodup := by
  rw [dictInsert_keys]
  by_cases hmem : d.any (fun p => p.1 == k)
  · simpa [hmem] using h
  · have hk : k ∉ d.map Prod.fst := by
      intro hmem2
      obtain ⟨p, hp, hpk⟩ := List.mem_map.1 hmem2
      exact hmem (List.any_eq_true.2 ⟨p, hp, by simp [hpk]⟩)
    simp [hmem, List.nodup_append, h, hk]

/-- A fold whose step preserves distinctness of the collected keys yields a
map with distinct keys. -/
theorem foldl_preserves_nodup_keys {α : Type}
    (step : List (String × String) × List Act → α → List (String × String) × List Act)
    (hstep : ∀ acc a, (acc.1.map Prod.fst).Nodup → (((step acc a).1).map Prod.fst).Nodup) :
    ∀ (l : List α) (acc : List (String × String) × List Act),
      (acc.1.map Prod.fst).Nodup → (((l.foldl step acc).1).map Prod.fst).Nodup := by
  intro l
  induction l with
  | nil => intro acc h; exact h
  | cons a t ih => intro acc h; exact ih _ (hstep acc a h)

/-- The loop body of `get_routing_targets` preserves key distinctness. -/
theorem get_routing_targets_step_nodup
    (acc : List (String × String) × List Act) (pr : String × Rule)
    (h : (acc.1.map Prod.fst).Nodup) :
    (((get_routing_targets_step acc pr).1).map Prod.fst).Nodup := by
  unfold get_routing_targets_step
  repeat' first
    | exact h
    | exact dictInsert_keys_nodup _ _ _ h
    | split
    | dsimp only

/-- The loop body of the target collection of `push_serieslevel_routing`
preserves key distinctness. -/
theorem push_serieslevel_routing_step_nodup (rules : List (String × Rule))
    (acc : List (String × String) × List Act) (nm : String × String)
    (h : (acc.1.map Prod.fst).Nodup) :
    (((push_serieslevel_routing_step rules acc nm).1).map Prod.fst).Nodup := by
  unfold push_serieslevel_routing_step
  repeat' first
    | exact h
    | exact dictInsert_keys_nodup _ _ _ h
    | split
    | dsimp only

/-- C8: within one series, both target collectors — `get_routing_targets` of
process_series.py and the `selected_targets` collection of
`push_serieslevel_routing` in route_series.py — build a target-to-rule
mapping in which every target name occurs exactly once, however many
triggered rules selected it; the mapping is complete before any outgoing
folder is staged. -/
theorem routing_targets_dedup (rules : List (String × Rule))
    (triggered_rules : List (String × String)) :
    ((get_routing_targets rules).1.map Prod.fst).Nodup
    ∧ ((routing_selected_targets rules triggered_rules).1.map Prod.fst).Nodup := by
  constructor
  · exact foldl_preserves_nodup_keys get_routing_targets_step
      (fun acc a ha => get_routing_targets_step_nodup acc a ha)
      rules ([], []) (by simp)
  · exact foldl_preserves_nodup_keys (push_serieslevel_routing_step rules)
      (fun acc a ha => push_serieslevel_routing_step_nodup rules acc a ha)
      triggered_rules ([], []) (by simp)

/-- The dispatcher's sent branch performs only moves, unlinks and a series
event — never a job submission. -/
theorem enqueue_not_in_sentBranchActs (sf iso : String) (e : OutEntry) (p : String) :
    Act.enqueueJob p ∉ sentBranchActs sf iso e := by
  unfold sentBranchActs _move_sent_directory
  split <;> simp

/-- C9: whenever a dispatcher scan submits a transfer job for an outgoing
entry, the entry's descriptor was readable, the current time is at least its
`next_retry_at` (taken as 0 when absent), and the act trace of the entry
ends with the `.sending` touch immediately followed by the job submission —
the sentinel is created before the job is submitted.  Moreover the scan is
non-blocking: the trace of a snapshot is the per-entry traces concatenated,
independent of any job outcome. -/
theorem dispatch_sending_before_enqueue (now : Nat) (sf iso : String) (e : OutEntry)
    (h : Act.enqueueJob e.path ∈ dispatchEntry now sf iso e) :
    (∃ ti, e.targetInfo = some ti ∧ ti.next_retry_at.getD 0 ≤ now
      ∧ ∃ w, dispatchEntry now sf iso e
          = w ++ [Act.touch (e.path ++ "/.sending"), Act.enqueueJob e.path])
    ∧ ∀ rest, dispatch now sf iso (e :: rest)
        = dispatchEntry now sf iso e ++ dispatch now sf iso rest := by
  refine ⟨?_, fun rest => rfl⟩
  cases hti : e.targetInfo with
  | none =>
    exfalso
    unfold dispatchEntry at h
    rw [hti] at h
    dsimp only at h
    by_cases hs : (is_dir_attr_truthy && e.hasBeenSend) = true
    · rw [if_pos hs] at h
      exact enqueue_not_in_sentBranchActs sf iso e e.path h
    · rw [if_neg hs] at h
      simp at h
  | some ti =>
    unfold dispatchEntry at h
    rw [hti] at h
    dsimp only at h
    by_cases hd : (e.isDir && !e.hasBeenSend) = true
    · rw [if_pos hd] at h
      by_cases ht : now ≥ ti.next_retry_at.getD 0
      · refine ⟨ti, rfl, ht,
          (if (ti.series_uid.getD "series_uid-missing" == "series_uid-missing"
              || ti.target_name.getD "target_name-missing" == "target_name-missing") = true
           then [Act.hermesEvent .PROCESSING .WARNING
                  ("Missing information for folder " ++ e.path)]
           else []), ?_⟩
        unfold dispatchEntry
        rw [hti]
        dsimp only
        rw [if_pos hd, if_pos ht]
      · rw [if_neg ht] at h
        simp at h
    · rw [if_neg hd] at h
      by_cases hs : (is_dir_attr_truthy && e.hasBeenSend) = true
      · rw [if_pos hs] at h
        exact absurd h (enqueue_not_in_sentBranchActs sf iso e e.path)
      · rw [if_neg hs] at h
        simp at h

/-- Witness for `dispatch_sending_before_enqueue` at a concrete input: a
ready directory entry with `next_retry_at = 50` scanned at time 100. -/
theorem dispatch_sending_before_enqueue_witness :
    ∃ ti, (OutEntry.mk "outgoing/u1" "u1" true false
        (some ⟨some 50, some "S", some "T"⟩) none false).targetInfo = some ti
      ∧ ti.next_retry_at.getD 0 ≤ 100
      ∧ ∃ w, dispatchEntry 100 "success" "T0"
            (OutEntry.mk "outgoing/u1" "u1" true false
              (some ⟨some 50, some "S", some "T"⟩) none false)
          = w ++ [Act.touch "outgoing/u1/.sending", Act.enqueueJob "outgoing/u1"] :=
  (dispatch_sending_before_enqueue 100 "success" "T0"
    (OutEntry.mk "outgoing/u1" "u1" true false
      (some ⟨some 50, some "S", some "T"⟩) none false) (by decide)).1

/-- C10: for every outgoing entry that the sent-check reports as sent, the
dispatcher takes the move-to-success branch regardless of whether the entry
is a directory — `entry.is_dir` without parentheses is a bound method and
always truthy — so the entry's whole trace is the sent-branch acts even for
a non-directory entry. -/
theorem dispatch_sent_branch_ignores_isdir (now : Nat) (sf iso : String)
    (e : OutEntry) (h : e.hasBeenSend = true) :
    dispatchEntry now sf iso e = sentBranchActs sf iso e
    ∧ is_dir_attr_truthy = true := by
  refine ⟨?_, rfl⟩
  unfold dispatchEntry
  cases hti : e.targetInfo with
  | none => simp [h, is_dir_attr_truthy]
  | some ti => simp [h, is_dir_attr_truthy]

/-- Witness for `dispatch_sent_branch_ignores_isdir` at a concrete input: a
non-directory entry reported as sent is still moved to the success folder. -/
theorem dispatch_sent_branch_ignores_isdir_witness :
    dispatchEntry 0 "success" "T1"
        (OutEntry.mk "outgoing/f.txt" "f.txt" false true none (some "SER") false)
      = sentBranchActs "success" "T1"
        (OutEntry.mk "outgoing/f.txt" "f.txt" false true none (some "SER") false) :=
  (dispatch_sent_branch_ignores_isdir 0 "success" "T1"
    (OutEntry.mk "outgoing/f.txt" "f.txt" false true none (some "SER") false) rfl).1
